import Mathlib

/-!
Shallow embedding of the go-agent core: the transaction record and its
public surface (source file `part_000`, package `internal`) and the
log-event subsystem (`v3/newrelic/log_event.go`).  Machine time, stack
capture, the response sink and the collector connection are external
collaborators; they enter as explicit parameters.  Go's `error` interface
values are modelled by the single inductive `GoErr`; `nil` is `Option.none`.
-/

namespace GoAgent

/-- The Go `error` values this code returns or passes through.  The named
constructors are the sentinel errors declared in the sources; `external`
stands for an error produced by an external collaborator (the response
sink's write, `getState`). -/
inductive GoErr where
  | alreadyEnded
  | errorsLocallyDisabled
  | errorsRemotelyDisabled
  | nilError
  | nilLogData
  | logMessageTooLarge
  | nilLogBuffer
  | noApplication
  | external (s : String)
  deriving DecidableEq

/-! ## Log events (`v3/newrelic/log_event.go`) -/

/-- `MaxLogLength`: maximum number of bytes a log message may be. -/
def MaxLogLength : Nat := 32768

/-- Modelled from the spec: `logcontext.LogSeverityUnknown`, the fixed
"unknown" sentinel severity; the `logcontext` package is not among the
provided sources. -/
def LogSeverityUnknown : String := "UNKNOWN"

/-- Modelled from the spec: field names from the external `logcontext`
package (severity field). -/
def LogSeverityFieldName : String := "level"

/-- Modelled from the spec: message field name from `logcontext`. -/
def LogMessageFieldName : String := "message"

/-- Modelled from the spec: span-id field name from `logcontext`. -/
def LogSpanIDFieldName : String := "span.id"

/-- Modelled from the spec: trace-id field name from `logcontext`. -/
def LogTraceIDFieldName : String := "trace.id"

/-- Modelled from the spec: timestamp field name from `logcontext`. -/
def LogTimestampFieldName : String := "timestamp"

/-- Whitespace as `strings.TrimSpace` sees it (the ASCII space characters
plus the two Latin-1 ones; wider Unicode space classes do not occur in
these claims). -/
def isSpaceChar (c : Char) : Bool :=
  c == ' ' || c == '\t' || c == '\n' || c == '\x0b' || c == '\x0c' || c == '\r' ||
    c == '\u0085' || c == '\u00A0'

/-- The Go standard library's `strings.TrimSpace` (an external
collaborator): drop leading and trailing whitespace. -/
def trimSpace (s : String) : String :=
  ⟨((s.data.dropWhile isSpaceChar).reverse.dropWhile isSpaceChar).reverse⟩

/-- `logEvent`: a sampling-ready log record.  The sampling `priority` is an
opaque key whose generation (`newPriority`) is external; it is passed in. -/
structure LogEvent where
  priority  : Nat
  timestamp : Int
  severity  : String
  message   : String
  spanID    : String
  traceID   : String
  deriving DecidableEq

/-- The zero `logEvent{}` value returned alongside an error. -/
def emptyLogEvent : LogEvent :=
  { priority := 0, timestamp := 0, severity := "", message := "", spanID := "", traceID := "" }

/-- `LogData`: raw caller-supplied log input. -/
structure LogData where
  Timestamp : Int
  Severity  : String
  Message   : String
  deriving DecidableEq

/-- `(*LogData).toLogEvent`.  `data` is a possibly-nil pointer, so the input
is an `Option LogData` and the first component of the result is the
post-call state of the pointed-to record (the Go method mutates `data` in
place).  `now` stands for `timeToUnixMilliseconds(time.Now())` and `prio`
for `newPriority()`, both external. -/
def toLogEvent (now : Int) (prio : Nat) :
    Option LogData → Option LogData × LogEvent × Option GoErr
  | none => (none, emptyLogEvent, some GoErr.nilLogData)
  | some data0 =>
    let data1 := if data0.Severity = "" then { data0 with Severity := LogSeverityUnknown } else data0
    if data1.Message.utf8ByteSize > MaxLogLength then
      (some data1, emptyLogEvent, some GoErr.logMessageTooLarge)
    else
      let data2 := if data1.Timestamp = 0 then { data1 with Timestamp := now } else data1
      let data3 := { data2 with Message := trimSpace data2.Message,
                                Severity := trimSpace data2.Severity }
      (some data3,
       { priority := prio, message := data3.Message, severity := data3.Severity,
         timestamp := data3.Timestamp, spanID := "", traceID := "" },
       none)

/-- Modelled from the spec: JSON string escaping lives in the external
`jsonx` writer; modelled as quoting plus backslash-escaping of the quote
and backslash characters. -/
def jsonEscape (s : String) : String :=
  s.foldl (fun acc c =>
    if c = '"' then acc ++ "\\\""
    else if c = '\\' then acc ++ "\\\\"
    else acc.push c) ""

/-- A JSON string literal for `s`. -/
def jsonString (s : String) : String := "\"" ++ jsonEscape s ++ "\""

/-- Modelled from the spec: the external `jsonFieldsWriter` — a buffer plus
a pending-comma flag. -/
structure JsonFieldsWriter where
  buf        : String
  needsComma : Bool

/-- `jsonFieldsWriter.stringField`: comma if needed, then `"name":"value"`. -/
def stringField (w : JsonFieldsWriter) (name val : String) : JsonFieldsWriter :=
  let w1 := if w.needsComma then { w with buf := w.buf ++ "," } else w
  { buf := w1.buf ++ jsonString name ++ ":" ++ jsonString val, needsComma := true }

/-- `jsonFieldsWriter.intField`: comma if needed, then `"name":value`. -/
def intField (w : JsonFieldsWriter) (name : String) (val : Int) : JsonFieldsWriter :=
  let w1 := if w.needsComma then { w with buf := w.buf ++ "," } else w
  { buf := w1.buf ++ jsonString name ++ ":" ++ toString val, needsComma := true }

/-- `(*logEvent).WriteJSON`: the wire encoding appended to a buffer (the
buffer starts empty here; the result is the bytes written). -/
def WriteJSON (e : LogEvent) : String :=
  let w0 : JsonFieldsWriter := { buf := "\x7b", needsComma := false }
  let w1 := stringField w0 LogSeverityFieldName e.severity
  let w2 := stringField w1 LogMessageFieldName e.message
  let w3 := if e.spanID.length > 0 then stringField w2 LogSpanIDFieldName e.spanID else w2
  let w4 := if e.traceID.length > 0 then stringField w3 LogTraceIDFieldName e.traceID else w3
  let w5 : JsonFieldsWriter := { w4 with needsComma := false }
  let w6 : JsonFieldsWriter := { w5 with buf := w5.buf ++ "," }
  let w7 := intField w6 LogTimestampFieldName e.timestamp
  w7.buf ++ "\x7d"

/-! ## Log enrichment (`EnrichLog` and linking metadata) -/

/-- `linkingMetadata`: identifiers tying a log line to trace, span and
reporting entity. -/
structure LinkingMetadata where
  traceID    : String
  spanID     : String
  entityGUID : String
  hostname   : String
  entityName : String

/-- `(*linkingMetadata).appendLinkingMetadata`: appends the NR-LINKING
block to the buffer when entity GUID, entity name and hostname are all
non-empty. -/
def appendLinkingMetadata (md : LinkingMetadata) (buf : String) : String :=
  if md.entityGUID = "" || md.entityName = "" || md.hostname = "" then buf
  else if md.traceID ≠ "" && md.spanID ≠ "" then
    buf ++ " NR-LINKING|" ++ md.entityGUID ++ "|" ++ md.hostname ++ "|" ++
      md.traceID ++ "|" ++ md.spanID ++ "|" ++ md.entityName ++ "|"
  else
    buf ++ " NR-LINKING|" ++ md.entityGUID ++ "|" ++ md.hostname ++ "|" ++ md.entityName ++ "|"

/-- The slice of the connect-reply snapshot and remote configuration that
`EnrichLog` reads after `getState` succeeds (`reply.Reply.EntityGUID` and
`reply.Config.ApplicationLogging`). -/
structure AppRunState where
  entityGUID             : String
  loggingEnabled         : Bool
  localDecoratingEnabled : Bool

/-- The connected application (`app.app`): its static configuration plus
the outcome of `getState()` (external). -/
structure AppRun where
  appName  : String
  hostname : String
  getState : Except GoErr AppRunState

/-- `Application`: a handle whose inner `app` may be nil. -/
structure Application where
  app : Option AppRun

/-- The trace metadata a live transaction reports (`GetTraceMetadata`). -/
structure TraceMetadata where
  spanID  : String
  traceID : String

/-- A live transaction handle as `EnrichLog` sees it: its owning
application and its active trace context. -/
structure TransactionHandle where
  application   : Application
  traceMetadata : TraceMetadata

/-- `logEnricherConfig`. -/
structure LogEnricherConfig where
  app : Option Application
  txn : Option TransactionHandle

/-- `FromApp`. -/
def FromApp (app : Application) : LogEnricherConfig → LogEnricherConfig :=
  fun cfg => { cfg with app := some app }

/-- `FromTxn`. -/
def FromTxn (txn : TransactionHandle) : LogEnricherConfig → LogEnricherConfig :=
  fun cfg => { cfg with txn := some txn }

/-- `EnrichLog`: appends linking metadata to a caller-owned buffer.  The
buffer is a possibly-nil pointer (`Option String`); the result pairs its
post-call state with the returned error. -/
def EnrichLog (buf : Option String) (opts : LogEnricherConfig → LogEnricherConfig) :
    Option String × Option GoErr :=
  let config := opts { app := none, txn := none }
  match buf with
  | none => (none, some GoErr.nilLogBuffer)
  | some b =>
    let md0 : LinkingMetadata :=
      { traceID := "", spanID := "", entityGUID := "", hostname := "", entityName := "" }
    let resolved : Option (Application × LinkingMetadata) :=
      match config.app with
      | some app => some (app, md0)
      | none =>
        match config.txn with
        | some txn =>
          some (txn.application,
                { md0 with spanID := txn.traceMetadata.spanID,
                           traceID := txn.traceMetadata.traceID })
        | none => none
    match resolved with
    | none => (some b, some GoErr.noApplication)
    | some (app, md1) =>
      match app.app with
      | none => (some b, some GoErr.noApplication)
      | some run =>
        match run.getState with
        | Except.error err => (some b, some err)
        | Except.ok st =>
          let md2 := { md1 with entityGUID := st.entityGUID,
                                entityName := run.appName,
                                hostname := run.hostname }
          if st.loggingEnabled && st.localDecoratingEnabled then
            (some (appendLinkingMetadata md2 b), none)
          else (some b, none)

/-! ## The transaction record (`part_000`, package `internal`) -/

/-- The slice of `api.Config` this code reads. -/
structure ErrorCollectorConfig where
  Enabled           : Bool
  CaptureEvents     : Bool
  IgnoreStatusCodes : List Int
  deriving DecidableEq

/-- `api.Config` (the fields `part_000` touches). -/
structure Config where
  ErrorCollector           : ErrorCollectorConfig
  HighSecurity             : Bool
  TransactionEventsEnabled : Bool
  HostDisplayName          : String
  deriving DecidableEq

/-- `ConnectReply` (the fields `part_000` touches). -/
structure ConnectReply where
  CollectAnalyticsEvents : Bool
  CollectErrorEvents     : Bool
  CollectErrors          : Bool
  RunID                  : String
  deriving DecidableEq

/-- `txnError`: a structured error record. -/
structure TxnError where
  klass : String
  msg   : String
  when  : Nat
  stack : String
  deriving DecidableEq

/-- The agent-populated response attributes this code writes, plus the
user attribute entries (`addUserAttribute` target). -/
structure Attributes where
  ResponseHeadersContentType   : String
  ResponseHeadersContentLength : Option Int
  ResponseCode                 : String
  user                         : List (String × String)
  deriving DecidableEq

/-- `apdexZone`. -/
inductive ApdexZone where
  | none
  | satisfying
  | tolerating
  | failing
  deriving DecidableEq

/-- The `txn` record.  Machine times are abstract `Nat` instants; the
consumer, response sink and request are external and enter as operation
parameters or result components. -/
structure Txn where
  config         : Config
  reply          : ConnectReply
  finished       : Bool
  queuing        : Nat
  start          : Nat
  name           : String
  isWeb          : Bool
  ignore         : Bool
  errors         : Option (List TxnError)
  errorsSeen     : Nat
  attrs          : Attributes
  wroteHeader    : Bool
  stop           : Nat
  duration       : Int
  finalName      : String
  zone           : ApdexZone
  apdexThreshold : Nat
  deriving DecidableEq

/-- `txn.txnEventsEnabled`. -/
def txnEventsEnabled (t : Txn) : Bool :=
  t.config.TransactionEventsEnabled && t.reply.CollectAnalyticsEvents

/-- `txn.errorEventsEnabled`. -/
def errorEventsEnabled (t : Txn) : Bool :=
  t.config.ErrorCollector.CaptureEvents && t.reply.CollectErrorEvents

/-- `txn.getsApdex`. -/
def getsApdex (t : Txn) : Bool := t.isWeb

/-- `txn.freezeName`.  `CreateFullTxnName` is outside the provided sources;
it is passed in as `fullName` (a function of the work-in-progress name and
the web flag; the connect reply it also consults is fixed per call). -/
def freezeName (fullName : String → Bool → String) (t : Txn) : Txn :=
  if t.ignore || t.finalName ≠ "" then t
  else
    let t1 := { t with finalName := fullName t.name t.isWeb }
    if t1.finalName = "" then { t1 with ignore := true } else t1

/-- `responseCodeIsError`. -/
def responseCodeIsError (cfg : Config) (code : Int) : Bool :=
  if code < 400 then false
  else !(cfg.ErrorCollector.IgnoreStatusCodes.contains code)

/-- `statusCodeLookup`: the literal status-code-to-string map. -/
def statusCodeLookup : List (Int × String) :=
  [(100, "100"), (101, "101"),
   (200, "200"), (201, "201"), (202, "202"), (203, "203"), (204, "204"),
   (205, "205"), (206, "206"),
   (300, "300"), (301, "301"), (302, "302"), (303, "303"), (304, "304"),
   (305, "305"), (307, "307"),
   (400, "400"), (401, "401"), (402, "402"), (403, "403"), (404, "404"),
   (405, "405"), (406, "406"), (407, "407"), (408, "408"), (409, "409"),
   (410, "410"), (411, "411"), (412, "412"), (413, "413"), (414, "414"),
   (415, "415"), (416, "416"), (417, "417"), (418, "418"), (428, "428"),
   (429, "429"), (431, "431"), (451, "451"),
   (500, "500"), (501, "501"), (502, "502"), (503, "503"), (504, "504"),
   (505, "505"), (511, "511")]

/-- `HighSecurityErrorMsg`. -/
def HighSecurityErrorMsg : String := "message removed by high security setting"

/-- Modelled from the spec: `maxTxnErrors`, the fixed capacity of the
bounded per-transaction error collection; the constant is outside the
provided sources and no claim depends on its value. -/
def maxTxnErrors : Nat := 20

/-- Modelled from the spec: `txnErrors.Add` — a bounded store that accepts
records up to its fixed capacity; the eviction policy once full is an
external collaborator (modelled as dropping the new record). -/
def txnErrorsAdd (es : List TxnError) (e : TxnError) : List TxnError :=
  if es.length < maxTxnErrors then es ++ [e] else es

/-- `txn.noticeErrorInternal`.  `now` stands for `time.Now()` used to stamp
the capture time. -/
def noticeErrorInternal (now : Nat) (err : TxnError) (t : Txn) : Txn × Option GoErr :=
  let t1 := { t with errorsSeen := t.errorsSeen + 1 }
  if !t1.config.ErrorCollector.Enabled then (t1, some GoErr.errorsLocallyDisabled)
  else if !t1.reply.CollectErrors then (t1, some GoErr.errorsRemotelyDisabled)
  else
    let es := match t1.errors with
      | none => ([] : List TxnError)
      | some es => es
    let err1 := if t1.config.HighSecurity then { err with msg := HighSecurityErrorMsg } else err
    let err2 := { err1 with when := now }
    ({ t1 with errors := some (txnErrorsAdd es err2) }, none)

/-- A raw Go failure value handed to `NoticeError` (non-nil case). -/
structure GoFailure where
  msg   : String
  klass : String
  deriving DecidableEq

/-- Modelled from the spec: `txnErrorFromError` converts a raw failure into
a structured record (class/kind and message); its implementation is outside
the provided sources. -/
def txnErrorFromError (e : GoFailure) : TxnError :=
  { klass := e.klass, msg := e.msg, when := 0, stack := "" }

/-- Modelled from the spec: `txnErrorFromResponseCode` synthesizes an error
record tagged with the response status code; its implementation is outside
the provided sources. -/
def txnErrorFromResponseCode (code : Int) : TxnError :=
  { klass := "response code " ++ toString code, msg := "response code " ++ toString code,
    when := 0, stack := "" }

/-- `txn.NoticeError`.  `stack` stands for `getStackTrace(1)`; `err` is the
possibly-nil failure. -/
def NoticeError (now : Nat) (stack : String) (err : Option GoFailure) (t : Txn) :
    Txn × Option GoErr :=
  if t.finished then (t, some GoErr.alreadyEnded)
  else
    match err with
    | none => (t, some GoErr.nilError)
    | some e =>
      let r := txnErrorFromError e
      noticeErrorInternal now { r with stack := stack } t

/-- `txn.SetName`. -/
def SetName (name : String) (t : Txn) : Txn × Option GoErr :=
  if t.finished then (t, some GoErr.alreadyEnded)
  else ({ t with name := name }, none)

/-- Modelled from the spec: `addUserAttribute` validates and stores a user
attribute; the allow/deny filtering engine is an external collaborator
(modelled as storing the pair). -/
def addUserAttribute (a : Attributes) (key val : String) : Attributes × Option GoErr :=
  ({ a with user := a.user ++ [(key, val)] }, none)

/-- `txn.AddAttribute`. -/
def AddAttribute (key val : String) (t : Txn) : Txn × Option GoErr :=
  if t.finished then (t, some GoErr.alreadyEnded)
  else
    let r := addUserAttribute t.attrs key val
    ({ t with attrs := r.1 }, r.2)

/-- Digit-string parsing helper for `atoi`. -/
def parseDigits : List Char → Option Nat
  | [] => none
  | cs =>
    if cs.all Char.isDigit then
      some (cs.foldl (fun a c => a * 10 + (c.toNat - 48)) 0)
    else none

/-- The Go standard library's `strconv.Atoi` (an external collaborator):
an optional sign followed by at least one digit; anything else is an
error (`none`).  Overflow of the machine int is not modelled; no claim
involves it. -/
def atoi (s : String) : Option Int :=
  match s.data with
  | [] => none
  | '+' :: rest => (parseDigits rest).map (fun n => (n : Int))
  | '-' :: rest => (parseDigits rest).map (fun n => -(n : Int))
  | cs => (parseDigits cs).map (fun n => (n : Int))

/-- The headers of the underlying response sink as read back by
`txn.Writer.Header()` (content type and raw content length). -/
structure ResponseHeader where
  contentType   : String
  contentLength : String
  deriving DecidableEq

/-- `headersJustWritten`: one-shot header capture.  `hdr` is what
`txn.Writer.Header()` reports, `now` the capture-time clock and `stack`
the captured call stack for a synthesized response-code error. -/
def headersJustWritten (hdr : ResponseHeader) (now : Nat) (stack : String)
    (code : Int) (t : Txn) : Txn :=
  if t.finished then t
  else if t.wroteHeader then t
  else
    let t1 := { t with wroteHeader := true }
    let a1 := { t1.attrs with ResponseHeadersContentType := hdr.contentType }
    let a2 :=
      if hdr.contentLength ≠ "" then
        match atoi hdr.contentLength with
        | some x => { a1 with ResponseHeadersContentLength := some x }
        | none => a1
      else a1
    let rc0 := (statusCodeLookup.lookup code).getD ""
    let rc := if rc0 = "" then toString code else rc0
    let t2 := { t1 with attrs := { a2 with ResponseCode := rc } }
    if responseCodeIsError t2.config code then
      let e := txnErrorFromResponseCode code
      (noticeErrorInternal now { e with stack := stack } t2).1
    else t2

/-- The result of the underlying sink's `Write`, which is external. -/
structure WriterResult where
  n   : Nat
  err : Option GoErr
  deriving DecidableEq

/-- `txn.Write`: delegates to the underlying sink (whose outcome is `res`),
then runs header capture with status 200; returns the sink's byte count
and error unchanged. -/
def Write (res : WriterResult) (hdr : ResponseHeader) (now : Nat) (stack : String)
    (t : Txn) : Txn × Nat × Option GoErr :=
  (headersJustWritten hdr now stack 200 t, res.n, res.err)

/-- `txn.WriteHeader`: delegates the status code to the underlying sink,
then runs header capture; it returns no value. -/
def WriteHeader (hdr : ResponseHeader) (now : Nat) (stack : String) (code : Int)
    (t : Txn) : Txn :=
  headersJustWritten hdr now stack code t

/-- Modelled from the spec: `calculateApdexZone` is called by `End` but its
definition is outside the provided sources.  The spec: satisfied when
duration ≤ threshold; tolerated when ≤ 4× threshold; frustrated/failing
beyond. -/
def calculateApdexZone (threshold : Nat) (duration : Int) : ApdexZone :=
  if duration ≤ (threshold : Int) then ApdexZone.satisfying
  else if duration ≤ 4 * (threshold : Int) then ApdexZone.tolerating
  else ApdexZone.failing

/-- The external collaborators `End` calls: the clock, the in-flight panic
observed by `recover()` (already converted by `txnErrorFromPanic` with its
captured stack), `CreateFullTxnName` and `calculateApdexThreshold`. -/
structure EndEnv where
  now               : Nat
  recovered         : Option TxnError
  fullName          : String → Bool → String
  apdexThresholdFor : String → Nat

/-- `txn.End`.  The second result component records whether
`Consumer.consume(Reply.RunID, txn)` was invoked (the harvest hand-off);
the third is the returned error.  A non-`none` `recovered` panic is
re-propagated by the Go code after the steps below; that resumption does
not change the transaction state and is not modelled further. -/
def End (env : EndEnv) (t : Txn) : Txn × Bool × Option GoErr :=
  if t.finished then (t, false, some GoErr.alreadyEnded)
  else
    let t1 := { t with finished := true }
    let t2 := match env.recovered with
      | some e => (noticeErrorInternal env.now e t1).1
      | none => t1
    let t3 := { t2 with stop := env.now, duration := (env.now : Int) - (t2.start : Int) }
    let t4 := freezeName env.fullName t3
    let t5 :=
      if getsApdex t4 then
        let ta := { t4 with apdexThreshold := env.apdexThresholdFor t4.finalName }
        if ta.errorsSeen > 0 then { ta with zone := ApdexZone.failing }
        else { ta with zone := calculateApdexZone ta.apdexThreshold ta.duration }
      else { t4 with zone := ApdexZone.none }
    (t5, !t5.ignore, none)

/-- A sequence of `End` calls on one transaction: the final state and the
total number of harvest-consumer invocations. -/
def endSeq : List EndEnv → Txn → Txn × Nat
  | [], t => (t, 0)
  | e :: es, t =>
    let r := End e t
    let rest := endSeq es r.1
    (rest.1, (if r.2.1 then 1 else 0) + rest.2)

/-! ## Sample transaction values used by the concrete witnesses -/

/-- A config with error collection fully enabled and no ignored codes. -/
def sampleConfig : Config :=
  { ErrorCollector := { Enabled := true, CaptureEvents := true, IgnoreStatusCodes := [] },
    HighSecurity := false, TransactionEventsEnabled := true, HostDisplayName := "" }

/-- A connect reply with all remote collection permissions granted. -/
def sampleReply : ConnectReply :=
  { CollectAnalyticsEvents := true, CollectErrorEvents := true, CollectErrors := true,
    RunID := "run1" }

/-- Empty attribute holder. -/
def sampleAttrs : Attributes :=
  { ResponseHeadersContentType := "", ResponseHeadersContentLength := none,
    ResponseCode := "", user := [] }

/-- A fresh un-finalized web transaction. -/
def sampleTxn : Txn :=
  { config := sampleConfig, reply := sampleReply, finished := false, queuing := 0,
    start := 10, name := "W", isWeb := true, ignore := false, errors := none,
    errorsSeen := 0, attrs := sampleAttrs, wroteHeader := false, stop := 0,
    duration := 0, finalName := "", zone := ApdexZone.none, apdexThreshold := 0 }

/-- The sample transaction already finalized. -/
def sampleFinishedTxn : Txn := { sampleTxn with finished := true }

/-- The sample transaction under a locally disabled error collector. -/
def sampleTxnLocalOff : Txn :=
  { sampleTxn with
    config := { sampleConfig with
      ErrorCollector := { sampleConfig.ErrorCollector with Enabled := false } } }

/-- The sample transaction under high-security mode. -/
def sampleTxnHS : Txn :=
  { sampleTxn with config := { sampleConfig with HighSecurity := true } }

/-- A concrete error record. -/
def sampleErr : TxnError := { klass := "k", msg := "secret", when := 0, stack := "st" }

/-- A concrete finalize environment. -/
def sampleEnv : EndEnv :=
  { now := 25, recovered := none,
    fullName := fun n _ => "WebTransaction/Go/" ++ n,
    apdexThresholdFor := fun _ => 10 }

/-- A concrete response-header snapshot. -/
def sampleHdr : ResponseHeader := { contentType := "text/html", contentLength := "42" }

/-! ## Sample values used by the concrete witnesses -/

/-- A connect-reply snapshot with logging and local decoration enabled. -/
def sampleRunState : AppRunState :=
  { entityGUID := "G", loggingEnabled := true, localDecoratingEnabled := true }

/-- A connected application named "N" on host "H". -/
def sampleRun : AppRun :=
  { appName := "N", hostname := "H", getState := Except.ok sampleRunState }

/-- A live transaction handle with trace context `T`/`S`. -/
def sampleTxh : TransactionHandle :=
  { application := { app := some sampleRun },
    traceMetadata := { spanID := "S", traceID := "T" } }

/-! ## Helper lemmas -/

theorem string_length_pos_iff (s : String) : 0 < s.length ↔ s ≠ "" := by
  cases s with
  | mk data =>
    have hempty : ("" : String) = ⟨[]⟩ := rfl
    simp [String.length, hempty, String.ext_iff]
    exact List.length_pos

theorem trimSpace_unknown : trimSpace "UNKNOWN" = "UNKNOWN" := by decide

/-! ## Claim theorems: log events -/

/-- C7: `toLogEvent` (the log-event factory's build) fails with the nil
error exactly when the input is nil, fails with the oversized error exactly
when the message byte length exceeds 32768, and otherwise succeeds with the
blank severity defaulted to the "unknown" sentinel, a zero timestamp
defaulted to the current epoch milliseconds (`now`), and message and
severity whitespace-trimmed. -/
theorem toLogEvent_build_contract (now : Int) (prio : Nat) (data : LogData) :
    (toLogEvent now prio none).2.2 = some GoErr.nilLogData ∧
    (toLogEvent now prio (some data)).2.2 ≠ some GoErr.nilLogData ∧
    ((toLogEvent now prio (some data)).2.2 = some GoErr.logMessageTooLarge ↔
      data.Message.utf8ByteSize > MaxLogLength) ∧
    (data.Message.utf8ByteSize ≤ MaxLogLength →
      toLogEvent now prio (some data) =
        (some { Timestamp := if data.Timestamp = 0 then now else data.Timestamp,
                Severity := trimSpace (if data.Severity = "" then LogSeverityUnknown else data.Severity),
                Message := trimSpace data.Message },
         { priority := prio,
           timestamp := if data.Timestamp = 0 then now else data.Timestamp,
           severity := trimSpace (if data.Severity = "" then LogSeverityUnknown else data.Severity),
           message := trimSpace data.Message, spanID := "", traceID := "" },
         none)) ∧
    (data.Severity = "" → data.Message.utf8ByteSize ≤ MaxLogLength →
      (toLogEvent now prio (some data)).2.1.severity = LogSeverityUnknown) := by
  refine ⟨rfl, ?_, ?_, ?_, ?_⟩ <;>
    by_cases hs : data.Severity = "" <;>
    by_cases hm : data.Message.utf8ByteSize > MaxLogLength <;>
    by_cases htz : data.Timestamp = 0 <;>
    simp [toLogEvent, hs, hm, htz, Nat.lt_iff_add_one_le, Nat.not_lt] at * <;>
    simp_all [trimSpace_unknown, LogSeverityUnknown]

theorem toLogEvent_build_contract_witness :
    (toLogEvent 99 0 (some { Timestamp := 0, Severity := "", Message := " hi " })).2.2 = none := by
  have h := (toLogEvent_build_contract 99 0
      { Timestamp := 0, Severity := "", Message := " hi " }).2.2.2.1 (by decide)
  rw [h]

/-- C10: `toLogEvent` mutates the caller's record in place: after a
successful build the input record holds the defaulted timestamp and
severity and the trimmed message and severity, and (when defaulting
applied) differs from the original. -/
theorem toLogEvent_mutates_caller_record (now : Int) (prio : Nat) (data : LogData)
    (h : data.Message.utf8ByteSize ≤ MaxLogLength) :
    (toLogEvent now prio (some data)).2.2 = none ∧
    (toLogEvent now prio (some data)).1 =
      some { Timestamp := if data.Timestamp = 0 then now else data.Timestamp,
             Severity := trimSpace (if data.Severity = "" then LogSeverityUnknown else data.Severity),
             Message := trimSpace data.Message } ∧
    (data.Severity = "" → (toLogEvent now prio (some data)).1 ≠ some data) := by
  have hm : ¬ data.Message.utf8ByteSize > MaxLogLength := by omega
  refine ⟨?_, ?_, ?_⟩ <;>
    by_cases hs : data.Severity = "" <;>
    by_cases htz : data.Timestamp = 0 <;>
    simp [toLogEvent, hs, hm, htz] <;>
    intro heq <;>
    · have : trimSpace LogSeverityUnknown = data.Severity := congrArg LogData.Severity heq
      rw [hs] at this
      exact absurd this (by decide)

theorem toLogEvent_mutates_caller_record_witness :
    (" x" : String).utf8ByteSize ≤ MaxLogLength ∧
    (toLogEvent 7 1 (some { Timestamp := 0, Severity := "", Message := " x" })).1 ≠
      some { Timestamp := 0, Severity := "", Message := " x" } := by
  refine ⟨by decide, ?_⟩
  exact (toLogEvent_mutates_caller_record 7 1
    { Timestamp := 0, Severity := "", Message := " x" } (by decide)).2.2 rfl

/-- C8: the wire encoding of a log event is a JSON object whose fields
appear in exactly this order — severity, message, span id (present only if
non-empty), trace id (present only if non-empty), integer timestamp — for
every event. -/
theorem writeJSON_field_order (e : LogEvent) :
    WriteJSON e =
      "\x7b" ++ (jsonString LogSeverityFieldName ++ ":" ++ jsonString e.severity) ++
      ("," ++ (jsonString LogMessageFieldName ++ ":" ++ jsonString e.message)) ++
      (if e.spanID ≠ "" then
        "," ++ (jsonString LogSpanIDFieldName ++ ":" ++ jsonString e.spanID) else "") ++
      (if e.traceID ≠ "" then
        "," ++ (jsonString LogTraceIDFieldName ++ ":" ++ jsonString e.traceID) else "") ++
      ("," ++ (jsonString LogTimestampFieldName ++ ":" ++ toString e.timestamp)) ++
      "\x7d" := by
  by_cases hs : e.spanID = "" <;> by_cases ht : e.traceID = "" <;>
    simp [WriteJSON, stringField, intField, hs, ht, string_length_pos_iff,
      String.append_assoc]

/-- C9: with logging and local decoration enabled, `EnrichLog` sourced from
a transaction appends exactly the NR-LINKING block — the five
pipe-terminated fields when both trace and span ids are non-empty, else the
three — and appends nothing (returning success) when any of entity GUID,
host or entity name is empty. -/
theorem enrichLog_linking_block (b : String) (txh : TransactionHandle)
    (run : AppRun) (st : AppRunState)
    (happ : txh.application.app = some run)
    (hst : run.getState = Except.ok st)
    (hlog : st.loggingEnabled = true)
    (hdec : st.localDecoratingEnabled = true) :
    (st.entityGUID ≠ "" → run.appName ≠ "" → run.hostname ≠ "" →
      EnrichLog (some b) (FromTxn txh) =
        (some (b ++ " NR-LINKING|" ++
          (if txh.traceMetadata.traceID ≠ "" ∧ txh.traceMetadata.spanID ≠ "" then
            st.entityGUID ++ "|" ++ run.hostname ++ "|" ++ txh.traceMetadata.traceID ++ "|" ++
              txh.traceMetadata.spanID ++ "|" ++ run.appName ++ "|"
          else
            st.entityGUID ++ "|" ++ run.hostname ++ "|" ++ run.appName ++ "|")), none)) ∧
    ((st.entityGUID = "" ∨ run.appName = "" ∨ run.hostname = "") →
      EnrichLog (some b) (FromTxn txh) = (some b, none)) := by
  constructor
  · intro h1 h2 h3
    by_cases htr : txh.traceMetadata.traceID ≠ "" ∧ txh.traceMetadata.spanID ≠ "" <;>
      simp [EnrichLog, FromTxn, happ, hst, hlog, hdec, appendLinkingMetadata,
        h1, h2, h3, htr, String.append_assoc]
  · intro h
    rcases h with h | h | h <;>
      simp [EnrichLog, FromTxn, happ, hst, hlog, hdec, appendLinkingMetadata, h]

theorem enrichLog_linking_block_witness :
    EnrichLog (some "log line") (FromTxn sampleTxh) =
      (some ("log line" ++ " NR-LINKING|" ++
        ("G" ++ "|" ++ "H" ++ "|" ++ "T" ++ "|" ++ "S" ++ "|" ++ "N" ++ "|")), none) := by
  have h := (enrichLog_linking_block "log line" sampleTxh sampleRun sampleRunState
      rfl rfl rfl rfl).1 (by decide) (by decide) (by decide)
  rw [h]
  decide

/-! ## Helper lemmas: the transaction core -/

/-- Closed form of `noticeErrorInternal`: the only state changes are the
counter increment and, when both gates pass, the append of the stamped
(and possibly redacted) record. -/
theorem noticeErrorInternal_eq (now : Nat) (err : TxnError) (t : Txn) :
    noticeErrorInternal now err t =
      ({ t with
          errorsSeen := t.errorsSeen + 1,
          errors :=
            if t.config.ErrorCollector.Enabled && t.reply.CollectErrors then
              some (txnErrorsAdd (t.errors.getD [])
                { err with
                    msg := if t.config.HighSecurity then HighSecurityErrorMsg else err.msg,
                    when := now })
            else t.errors },
       if !t.config.ErrorCollector.Enabled then some GoErr.errorsLocallyDisabled
       else if !t.reply.CollectErrors then some GoErr.errorsRemotelyDisabled
       else none) := by
  cases hl : t.config.ErrorCollector.Enabled <;>
    cases hr : t.reply.CollectErrors <;>
    cases he : t.errors <;>
    cases hh : t.config.HighSecurity <;>
    simp [noticeErrorInternal, hl, hr, he, hh]

theorem freezeName_finished (f : String → Bool → String) (t : Txn) :
    (freezeName f t).finished = t.finished := by
  simp only [freezeName]
  split <;> [rfl; split <;> rfl]

theorem freezeName_isWeb (f : String → Bool → String) (t : Txn) :
    (freezeName f t).isWeb = t.isWeb := by
  simp only [freezeName]
  split <;> [rfl; split <;> rfl]

theorem freezeName_errorsSeen (f : String → Bool → String) (t : Txn) :
    (freezeName f t).errorsSeen = t.errorsSeen := by
  simp only [freezeName]
  split <;> [rfl; split <;> rfl]

theorem freezeName_duration (f : String → Bool → String) (t : Txn) :
    (freezeName f t).duration = t.duration := by
  simp only [freezeName]
  split <;> [rfl; split <;> rfl]

theorem freezeName_errors (f : String → Bool → String) (t : Txn) :
    (freezeName f t).errors = t.errors := by
  simp only [freezeName]
  split <;> [rfl; split <;> rfl]

/-- A finished transaction: `End` is a no-op returning the terminal
failure and never invoking the consumer. -/
theorem End_of_finished (env : EndEnv) (t : Txn) (h : t.finished = true) :
    End env t = (t, false, some GoErr.alreadyEnded) := by
  simp [End, h]

theorem End_finished_true (env : EndEnv) (t : Txn) (h : t.finished = false) :
    (End env t).1.finished = true := by
  cases hr : env.recovered <;>
    simp only [End, h, hr, Bool.false_eq_true, if_false, noticeErrorInternal_eq] <;>
    (repeat' split) <;>
    simp [freezeName_finished]

theorem End_snd (env : EndEnv) (t : Txn) (h : t.finished = false) :
    (End env t).2 = (!(End env t).1.ignore, none) := by
  simp [End, h]

theorem endSeq_finished (es : List EndEnv) (t : Txn) (h : t.finished = true) :
    endSeq es t = (t, 0) := by
  induction es with
  | nil => rfl
  | cons e es ih => simp [endSeq, End_of_finished e t h, ih]

/-! ## Claim theorems: the transaction core -/

/-- C1: for any sequence of `End` calls on one un-finalized transaction,
only the first transitions `finished` to true and returns success; every
later call returns the terminal failure and changes nothing; and the
harvest consumer is invoked exactly once over the whole sequence — or not
at all when the finalized transaction is flagged ignore. -/
theorem end_exactly_once (env env2 : EndEnv) (envs : List EndEnv) (t : Txn)
    (h : t.finished = false) :
    (End env t).1.finished = true ∧
    (End env t).2.2 = none ∧
    (End env t).2.1 = !(End env t).1.ignore ∧
    End env2 (End env t).1 = ((End env t).1, false, some GoErr.alreadyEnded) ∧
    (endSeq (env :: envs) t).1 = (End env t).1 ∧
    (endSeq (env :: envs) t).2 = (if (End env t).1.ignore then 0 else 1) := by
  have hfin : (End env t).1.finished = true := End_finished_true env t h
  have hsnd : (End env t).2 = (!(End env t).1.ignore, none) := End_snd env t h
  have hrest : endSeq envs (End env t).1 = ((End env t).1, 0) :=
    endSeq_finished envs (End env t).1 hfin
  refine ⟨hfin, ?_, ?_, End_of_finished env2 (End env t).1 hfin, ?_, ?_⟩
  · rw [show (End env t).2.2 = ((End env t).2).2 from rfl, hsnd]
  · rw [show (End env t).2.1 = ((End env t).2).1 from rfl, hsnd]
  · simp [endSeq, hrest]
  · simp only [endSeq, hrest]
    rw [show (End env t).2.1 = ((End env t).2).1 from rfl, hsnd]
    cases hI : (End env t).1.ignore <;> simp

theorem end_exactly_once_witness :
    sampleTxn.finished = false ∧ (endSeq [sampleEnv, sampleEnv] sampleTxn).2 = 1 := by
  have h := end_exactly_once sampleEnv sampleEnv [sampleEnv] sampleTxn rfl
  refine ⟨rfl, ?_⟩
  rw [h.2.2.2.2.2]
  decide

/-- C2 (amended): every mutating operation invoked after `End` has
completed leaves the transaction record exactly as it was at finalize
time; `SetName`, `AddAttribute`, `NoticeError` and `End` return the
terminal `alreadyEnded` failure, while the response-sink passthroughs do
not return it — `WriteHeader` returns no value at all and `Write` returns
the underlying sink's byte count and error unchanged. -/
theorem post_finalize_frame (t : Txn) (h : t.finished = true)
    (nm key val stack stack2 : String) (now now2 : Nat) (e : Option GoFailure)
    (env : EndEnv) (res : WriterResult) (hdr : ResponseHeader) (code : Int) :
    SetName nm t = (t, some GoErr.alreadyEnded) ∧
    AddAttribute key val t = (t, some GoErr.alreadyEnded) ∧
    NoticeError now stack e t = (t, some GoErr.alreadyEnded) ∧
    End env t = (t, false, some GoErr.alreadyEnded) ∧
    WriteHeader hdr now2 stack2 code t = t ∧
    Write res hdr now2 stack2 t = (t, res.n, res.err) := by
  refine ⟨?_, ?_, ?_, ?_, ?_, ?_⟩ <;>
    simp [SetName, AddAttribute, NoticeError, End, WriteHeader, Write,
      headersJustWritten, h]

theorem post_finalize_frame_witness :
    sampleFinishedTxn.finished = true ∧
    SetName "x" sampleFinishedTxn = (sampleFinishedTxn, some GoErr.alreadyEnded) := by
  have h := post_finalize_frame sampleFinishedTxn rfl "x" "k" "v" "s" "s2" 1 2 none
    sampleEnv { n := 3, err := none } sampleHdr 200
  exact ⟨rfl, h.1⟩

/-- C2 counterexample: on a transaction that has already been finalized,
`Write` does not return the `alreadyEnded` failure — it passes through the
underlying sink's (here successful) result, so the claim that every
post-finalize mutating call of the public surface returns
`AlreadyFinalized` is false for the response-sink passthroughs. -/
theorem write_after_end_not_alreadyEnded :
    (Write { n := 3, err := none } sampleHdr 7 "x" sampleFinishedTxn).2.2 ≠
      some GoErr.alreadyEnded ∧
    (Write { n := 3, err := none } sampleHdr 7 "x" sampleFinishedTxn).2.2 = none := by
  decide

/-- C3: `NoticeError` on a live transaction increments the error counter on
every captured failure regardless of the enablement gates; with local
capture disabled it returns the locally-disabled failure and stores
nothing, with local on but remote permission absent it returns the
remotely-disabled failure and stores nothing, and only when both gates
pass is the record appended to the bounded collection with success
returned. -/
theorem noticeError_counter_and_gates (now : Nat) (stack : String) (e : GoFailure)
    (t : Txn) (hfin : t.finished = false) :
    (NoticeError now stack (some e) t).1.errorsSeen = t.errorsSeen + 1 ∧
    (t.config.ErrorCollector.Enabled = false →
      (NoticeError now stack (some e) t).2 = some GoErr.errorsLocallyDisabled ∧
      (NoticeError now stack (some e) t).1.errors = t.errors) ∧
    (t.config.ErrorCollector.Enabled = true → t.reply.CollectErrors = false →
      (NoticeError now stack (some e) t).2 = some GoErr.errorsRemotelyDisabled ∧
      (NoticeError now stack (some e) t).1.errors = t.errors) ∧
    (t.config.ErrorCollector.Enabled = true → t.reply.CollectErrors = true →
      (t.errors.getD []).length < maxTxnErrors →
      (NoticeError now stack (some e) t).2 = none ∧
      ((NoticeError now stack (some e) t).1.errors.getD []).length
        = (t.errors.getD []).length + 1) := by
  refine ⟨?_, ?_, ?_, ?_⟩
  · simp [NoticeError, hfin, noticeErrorInternal_eq]
  · intro hl
    simp [NoticeError, hfin, noticeErrorInternal_eq, hl]
  · intro hl hr
    simp [NoticeError, hfin, noticeErrorInternal_eq, hl, hr]
  · intro hl hr hlen
    simp [NoticeError, hfin, noticeErrorInternal_eq, hl, hr, txnErrorsAdd, hlen]

theorem noticeError_counter_and_gates_witness :
    sampleTxnLocalOff.finished = false ∧
    sampleTxnLocalOff.config.ErrorCollector.Enabled = false ∧
    (NoticeError 5 "st" (some { msg := "m", klass := "k" }) sampleTxnLocalOff).1.errorsSeen
      = sampleTxnLocalOff.errorsSeen + 1 ∧
    (NoticeError 5 "st" (some { msg := "m", klass := "k" }) sampleTxnLocalOff).2
      = some GoErr.errorsLocallyDisabled ∧
    (NoticeError 5 "st" (some { msg := "m", klass := "k" }) sampleTxnLocalOff).1.errors
      = sampleTxnLocalOff.errors := by
  have h := noticeError_counter_and_gates 5 "st" { msg := "m", klass := "k" }
    sampleTxnLocalOff rfl
  exact ⟨rfl, rfl, h.1, (h.2.1 rfl).1, (h.2.1 rfl).2⟩

/-- C4: with high-security mode enabled, the redacted-messages invariant of
the stored error collection is preserved by every capture: if every stored
record's message is the fixed redaction string, then after
`noticeErrorInternal` — whatever the original failure message — it still
is. -/
theorem highSecurity_redaction_invariant (now : Nat) (err : TxnError) (t : Txn)
    (hs : t.config.HighSecurity = true)
    (hinv : ∀ r ∈ t.errors.getD [], r.msg = HighSecurityErrorMsg) :
    ∀ r ∈ (noticeErrorInternal now err t).1.errors.getD [],
      r.msg = HighSecurityErrorMsg := by
  rw [noticeErrorInternal_eq]
  cases hg : (t.config.ErrorCollector.Enabled && t.reply.CollectErrors)
  · simpa [hg] using hinv
  · intro r hr
    by_cases hlen : (t.errors.getD []).length < maxTxnErrors <;>
      simp [hg, txnErrorsAdd, hlen] at hr
    · rcases hr with hr | hr
      · exact hinv r hr
      · simp [hr, hs]
    · exact hinv r hr

theorem highSecurity_redaction_invariant_witness :
    sampleTxnHS.config.HighSecurity = true ∧
    ∀ r ∈ (noticeErrorInternal 5 sampleErr sampleTxnHS).1.errors.getD [],
      r.msg = HighSecurityErrorMsg := by
  exact ⟨rfl, highSecurity_redaction_invariant 5 sampleErr sampleTxnHS rfl (by decide)⟩

/-- C5: at finalize, a web transaction with at least one counted error gets
zone failing regardless of duration and threshold; a web transaction with
zero counted errors gets the three-way banding of duration against the
threshold; a non-web transaction gets zone none regardless of duration and
error count. -/
theorem apdex_zone_classification (env : EndEnv) (t : Txn) (h : t.finished = false) :
    (t.isWeb = true → 0 < (End env t).1.errorsSeen →
      (End env t).1.zone = ApdexZone.failing) ∧
    (t.isWeb = true → (End env t).1.errorsSeen = 0 →
      (End env t).1.zone =
        (if (End env t).1.duration ≤ ((End env t).1.apdexThreshold : Int) then
          ApdexZone.satisfying
         else if (End env t).1.duration ≤ 4 * ((End env t).1.apdexThreshold : Int) then
          ApdexZone.tolerating
         else ApdexZone.failing)) ∧
    (t.isWeb = false → (End env t).1.zone = ApdexZone.none) := by
  have hband : ∀ (th : Nat) (dur : Int),
      (if dur ≤ (th : Int) then ApdexZone.satisfying
       else if dur ≤ 4 * (th : Int) then ApdexZone.tolerating
       else ApdexZone.failing) = calculateApdexZone th dur := fun _ _ => rfl
  refine ⟨?_, ?_, ?_⟩ <;>
    (try rw [hband]) <;>
    cases hr : env.recovered <;>
      simp only [End, h, hr, Bool.false_eq_true, if_false, noticeErrorInternal_eq] <;>
      (repeat' split) <;>
      simp_all [getsApdex, freezeName_isWeb, freezeName_errorsSeen, freezeName_duration] <;>
      (intro h0; omega)

theorem apdex_zone_classification_witness :
    sampleTxn.finished = false ∧ sampleTxn.isWeb = true ∧
    (End sampleEnv sampleTxn).1.errorsSeen = 0 ∧
    (End sampleEnv sampleTxn).1.zone =
      (if (End sampleEnv sampleTxn).1.duration ≤
          ((End sampleEnv sampleTxn).1.apdexThreshold : Int) then ApdexZone.satisfying
       else if (End sampleEnv sampleTxn).1.duration ≤
          4 * ((End sampleEnv sampleTxn).1.apdexThreshold : Int) then ApdexZone.tolerating
       else ApdexZone.failing) := by
  have h := (apdex_zone_classification sampleEnv sampleTxn rfl).2.1 rfl (by decide)
  exact ⟨rfl, rfl, by decide, h⟩

/-- C6: on an un-finalized transaction that has not yet written headers, a
header-write with an error status (≥400 and not ignored) captures the
response content type, content length and canonical status string, counts
exactly one synthesized error (stored when both gates pass and the bounded
store has room), and any subsequent header-write on the resulting
transaction is ignored entirely. -/
theorem writeHeader_single_capture (hdr hdr2 : ResponseHeader) (now now2 : Nat)
    (stack stack2 : String) (code : Int) (t : Txn)
    (hf : t.finished = false) (hw : t.wroteHeader = false)
    (herr : responseCodeIsError t.config code = true) :
    (WriteHeader hdr now stack code t).wroteHeader = true ∧
    (WriteHeader hdr now stack code t).finished = false ∧
    (WriteHeader hdr now stack code t).errorsSeen = t.errorsSeen + 1 ∧
    (WriteHeader hdr now stack code t).attrs.ResponseHeadersContentType
      = hdr.contentType ∧
    (statusCodeLookup.lookup code = none →
      (WriteHeader hdr now stack code t).attrs.ResponseCode = toString code) ∧
    (∀ s, statusCodeLookup.lookup code = some s → s ≠ "" →
      (WriteHeader hdr now stack code t).attrs.ResponseCode = s) ∧
    (∀ x, atoi hdr.contentLength = some x →
      (WriteHeader hdr now stack code t).attrs.ResponseHeadersContentLength = some x) ∧
    (t.config.ErrorCollector.Enabled = true → t.reply.CollectErrors = true →
      (t.errors.getD []).length < maxTxnErrors →
      ((WriteHeader hdr now stack code t).errors.getD []).length
        = (t.errors.getD []).length + 1) ∧
    WriteHeader hdr2 now2 stack2 code (WriteHeader hdr now stack code t)
      = WriteHeader hdr now stack code t := by
  have h1 : (WriteHeader hdr now stack code t).wroteHeader = true := by
    simp only [WriteHeader, headersJustWritten, hf, hw, Bool.false_eq_true, if_false,
      noticeErrorInternal_eq]
    (repeat' split) <;> simp
  have h2 : (WriteHeader hdr now stack code t).finished = false := by
    simp only [WriteHeader, headersJustWritten, hf, hw, Bool.false_eq_true, if_false,
      noticeErrorInternal_eq]
    (repeat' split) <;> simp [hf]
  refine ⟨h1, h2, ?_, ?_, ?_, ?_, ?_, ?_, ?_⟩
  · simp only [WriteHeader, headersJustWritten, hf, hw, Bool.false_eq_true, if_false,
      noticeErrorInternal_eq, herr]
    (repeat' split) <;> simp_all [herr]
  · simp only [WriteHeader, headersJustWritten, hf, hw, Bool.false_eq_true, if_false,
      noticeErrorInternal_eq]
    (repeat' split) <;> simp
  · intro hnone
    simp only [WriteHeader, headersJustWritten, hf, hw, hnone, Bool.false_eq_true,
      if_false, noticeErrorInternal_eq, Option.getD_none]
    (repeat' split) <;> simp_all
  · intro s hs hne
    simp only [WriteHeader, headersJustWritten, hf, hw, hs, Bool.false_eq_true,
      if_false, noticeErrorInternal_eq, Option.getD_some]
    (repeat' split) <;> simp_all [hne]
  · intro x hx
    have hne : hdr.contentLength ≠ "" := by
      intro hc
      rw [hc] at hx
      exact absurd hx (by simp [atoi])
    simp only [WriteHeader, headersJustWritten, hf, hw, hne, hx, Bool.false_eq_true,
      if_false, noticeErrorInternal_eq, ne_eq, not_false_eq_true, if_true]
    (repeat' split) <;> simp_all
  · intro hl hr hlen
    simp only [WriteHeader, headersJustWritten, hf, hw, Bool.false_eq_true, if_false,
      noticeErrorInternal_eq, herr]
    (repeat' split) <;> simp_all [txnErrorsAdd, hlen, hl, hr, herr]
  · simp only [WriteHeader]
    generalize hT : headersJustWritten hdr now stack code t = T
    have hWH1 : T.wroteHeader = true := by rw [← hT]; exact h1
    have hWH2 : T.finished = false := by rw [← hT]; exact h2
    simp [headersJustWritten, hWH1, hWH2]

theorem writeHeader_single_capture_witness :
    sampleTxn.finished = false ∧ sampleTxn.wroteHeader = false ∧
    responseCodeIsError sampleTxn.config 404 = true ∧
    (WriteHeader sampleHdr 6 "st" 404 sampleTxn).errorsSeen = sampleTxn.errorsSeen + 1 ∧
    WriteHeader sampleHdr 7 "st2" 404 (WriteHeader sampleHdr 6 "st" 404 sampleTxn)
      = WriteHeader sampleHdr 6 "st" 404 sampleTxn := by
  have h := writeHeader_single_capture sampleHdr sampleHdr 6 7 "st" "st2" 404 sampleTxn
    rfl rfl (by decide)
  exact ⟨rfl, rfl, by decide, h.2.2.1, h.2.2.2.2.2.2.2.2⟩

end GoAgent
